import Mathlib

/-!
Verification development for the dark-pattern-detector-extension repository.

The definitions below are shallow embeddings of the JavaScript sources:

* `dark-pattern-detector-extension/content.js` — pattern-config parsing
  (`parsePatterns`, `createPatternObject`), candidate extraction
  (`findCandidates`), the batched scan loop with per-candidate AI
  verification raced against a timeout, the tiered decision policy, and the
  message/mutation driven scan-session state machine.
* `safe-web-extension/sandbox.js` and `safe-web-extension/lib/tf-stub.js` —
  the semantic verifier: `cosineSimilarity` and the two `predict` variants.
* The offscreen bridge script — the pending-request correlation table of
  `sendToSandbox` and its window message listener.

JavaScript numbers are modelled as exact rationals `ℚ` (the thresholds
0.6, 0.7, 0.5 are exact decimal literals, so branch decisions agree with the
float code on the values the claims are about); a JS division whose
denominator is zero is modelled as `none` (NaN), since in JS `0/0 = NaN`.
Regular-expression tests are abstracted as boolean-valued matcher functions
(`String → Bool`) attached to each pattern, since the claims under study
never depend on the internal structure of a regex, only on whether its test
fired on a given string.
-/

namespace DarkPatternDetector

/-! ## Verifier results and candidates (content.js) -/

/-- Embeds the object returned by `window.SafeWebAI.predictDarkPattern` as
consumed by `content.js`: the decision code only reads `score`,
`fallback` and `error` (each read through JS truthiness, modelled as a
rational score and two booleans). -/
structure AiResult where
  score : ℚ
  fallback : Bool
  error : Bool
deriving DecidableEq, Repr

/-- Embeds a pattern object (`createPatternObject` output) at the level the
scan loop uses it: a category name, a broad matcher and a strict matcher
(both JS regex `test` calls, abstracted as boolean functions), and the
advisory message. -/
structure PatternM where
  type : String
  broad : String → Bool
  strict : String → Bool
  message : String

/-- Embeds a candidate from `findCandidates` in `content.js`:
the matched text node's content, the surrounding context window sent to
the AI, and the pattern whose broad matcher fired. -/
structure Candidate where
  content : String
  context : String
  pattern : PatternM

/-- Decision tier recorded for an accepted candidate: `finalScore` in the
code is the numeric AI score for an AI acceptance and the string
`"Regex Fallback"` for a strict-matcher acceptance. -/
inductive Tier where
  | AI : Tier
  | StrictFallback : Tier
deriving DecidableEq, Repr

/-- Embeds an entry of `detectionResults` pushed by the scan loop:
`{type, text: content.substring(0,50), aiScore: finalScore}`. -/
structure DetectionResult where
  type : String
  text : String
  tier : Tier
  aiScore : Option ℚ
deriving DecidableEq, Repr

/-- The strict-matcher fallback branch of the decision code in
`scanAndHighlight` (content.js lines 295–303): re-test the candidate's
original matched `content` with the category's strict regex; accept with
the fallback tier exactly when it fires. -/
def strictFallbackDecision (c : Candidate) : Option DetectionResult :=
  if c.pattern.strict c.content then
    some { type := c.pattern.type, text := c.content.take 50,
           tier := Tier.StrictFallback, aiScore := none }
  else
    none

/-- Embeds the per-candidate decision code of `scanAndHighlight`
(content.js lines 284–314).  `aiResult` is `none` when the verification
threw, timed out, or the AI was not ready (`aiResult` stayed `null`).
The JS truthiness test `aiResult.score && aiResult.score > 0.6` is
equivalent to `score > 0.6` over exact numbers (a falsy score `0` also
fails `> 0.6`). -/
def decideOne (c : Candidate) : Option AiResult → Option DetectionResult
  | some r =>
      if !r.fallback && !r.error then
        if r.score > 3/5 then
          some { type := c.pattern.type, text := c.content.take 50,
                 tier := Tier.AI, aiScore := some r.score }
        else
          none
      else
        strictFallbackDecision c
  | none => strictFallbackDecision c

/-- Modelled from the claim's words (spec §4.4 decision policy, as claim C1
reads it): tier 1 accepts a non-fallback, non-error verification whose
score exceeds 0.6; *otherwise* — in every other case — the original
matched text is re-tested against the strict matcher and accepted with the
fallback tier exactly when it fires. -/
def decideOneClaimed (c : Candidate) : Option AiResult → Option DetectionResult
  | some r =>
      if !r.fallback && !r.error && decide (r.score > 3/5) then
        some { type := c.pattern.type, text := c.content.take 50,
               tier := Tier.AI, aiScore := some r.score }
      else
        strictFallbackDecision c
  | none => strictFallbackDecision c

/-- Modelled from the amended claim: the strict-matcher re-test runs only
when the verification is absent or marked fallback/error; a verification
that succeeded without those marks but whose score is at most 0.6 records
nothing (the code trusts the working AI's low score and does not fall back). -/
def decideOneAmended (c : Candidate) : Option AiResult → Option DetectionResult
  | some r =>
      if r.fallback || r.error then
        strictFallbackDecision c
      else if r.score > 3/5 then
        some { type := c.pattern.type, text := c.content.take 50,
               tier := Tier.AI, aiScore := some r.score }
      else
        none
  | none => strictFallbackDecision c

/-- A concrete candidate used in counterexamples and witnesses: strict
matcher fires on everything. -/
def candUrgency : Candidate :=
  { content := "Hurry! Limited time offer!"
  , context := "Hurry! Limited time offer! Shop the flash sale now."
  , pattern :=
      { type := "Urgency"
      , broad := fun _ => true
      , strict := fun _ => true
      , message := "Potential Urgency pattern detected." } }

/-- Per-candidate verification outcome as produced by the batch loop of
`scanAndHighlight` (content.js lines 244–277): if the AI is not ready the
result is `null`; otherwise the prediction promise is raced against
`timeoutPromise deadline`, and an arrival at or after the deadline leaves
the timeout's `null` (then `throw` / `catch`, which also leaves `null`). -/
def verifyCandidate (aiReady : Bool) (deadline arrival : ℕ)
    (response : Option AiResult) : Option AiResult :=
  if aiReady then
    if arrival < deadline then response else none
  else
    none

/-! ## Batched processing (content.js lines 229–315) -/

/-- Embeds the batch partitioning of the scan loop
(`for (let i = 0; i < candidates.length; i += BATCH_SIZE)` with
`candidates.slice(i, i + BATCH_SIZE)`): the candidate list cut into
consecutive chunks of size `k`.  The loop never runs with `k = 0`
(the source fixes `BATCH_SIZE = 3`); for totality that case keeps the
whole list as one batch. -/
def batches {α : Type} : ℕ → List α → List (List α)
  | _, [] => []
  | 0, a :: l => [a :: l]
  | k + 1, a :: l => (a :: l).take (k + 1) :: batches (k + 1) (l.drop k)
termination_by _ l => l.length
decreasing_by
  simp only [List.length_cons, List.length_drop]
  omega

/-- Embeds the whole batched loop: batches are handled strictly one after
the other (the code `await`s `Promise.all` of a batch before slicing the
next), and within a batch the results are appended in candidate order
(`Promise.all` preserves the order of `batch.map`, and the `for...of`
over `batchResults` pushes in that order).  `verify` is the per-candidate
verification outcome, a deterministic function of the context text sent
to the AI — this bakes in claim C6's premises that the verifier is
deterministic per input and that no timeout fires. -/
def processBatches (k : ℕ) (verify : String → Option AiResult)
    (cands : List Candidate) : List DetectionResult :=
  (batches k cands).foldl
    (fun acc batch => acc ++ batch.filterMap (fun c => decideOne c (verify c.context)))
    []

/-! ## Candidate extraction and the scan entry point -/

/-- Embeds a DOM text node as `findCandidates` inspects it.  The checks on
the parent element (script/style/noscript/prior-highlight), the computed
visibility predicate, and the benign `IGNORED_PATTERNS` test are outcomes
of DOM and regex queries; they enter the model as the booleans
`skipParent`, `visible` and `ignoreHit`.  `parentInnerText` is
`parent.innerText` when present and non-empty (JS truthiness), else
`none`. -/
structure TextNode where
  content : String
  skipParent : Bool
  visible : Bool
  ignoreHit : Bool
  parentInnerText : Option String

/-- Embeds `context.replace(/\s+/g, ' ').trim()`: maximal whitespace runs
collapse to single spaces and outer whitespace is dropped. -/
def collapseWhitespace (s : String) : String :=
  " ".intercalate ((s.split Char.isWhitespace).filter (fun w => w ≠ ""))

/-- Embeds the context-window construction of `findCandidates`
(content.js lines 195–208): parent inner text, whitespace-collapsed,
truncated to 300 characters with an ellipsis; the raw node content when
no parent text is available. -/
def contextOf (n : TextNode) : String :=
  match n.parentInnerText with
  | some t =>
      let c := collapseWhitespace t
      if c.length > 300 then c.take 300 ++ "..." else c
  | none => n.content

/-- Embeds the per-node guards of `findCandidates`: parent not excluded,
trimmed content at least 3 characters, parent visible, and no
ignore-list hit. -/
def nodeEligible (n : TextNode) : Bool :=
  !n.skipParent && decide (3 ≤ n.content.trim.length) && n.visible && !n.ignoreHit

/-- Embeds the candidate collection of `findCandidates`: for each eligible
node, one candidate per pattern whose broad matcher fires on the node
content, in pattern order, nodes in document order. -/
def extractCandidates (patterns : List PatternM) (nodes : List TextNode) :
    List Candidate :=
  nodes.foldl
    (fun acc n =>
      if nodeEligible n then
        acc ++ (patterns.filter (fun p => p.broad n.content)).map
          (fun p => { content := n.content, context := contextOf n, pattern := p })
      else acc)
    []

/-- Outcome of one run of `scanAndHighlight` as far as the claims observe
it: the `detectionResults` list and whether the empty-pattern warning
fired.  The JS function wraps its body in `try`/`catch`/`finally`, so the
model is a total function — no exception escapes the scanning loop. -/
structure ScanReport where
  results : List DetectionResult
  warnedEmptyPatterns : Bool
deriving DecidableEq, Repr

/-- Embeds a category as produced by `createPatternObject`: the matchers
are kept as their regex source strings here (the parsing layer);
`toMatcher` interprets them. -/
structure RawCategory where
  type : String
  broadPattern : String
  strictPattern : String
  message : String
deriving DecidableEq, Repr

/-- Interprets a parsed category's regex sources through a regex-test
semantics `rt : pattern source → input → Bool`. -/
def toMatcher (rt : String → String → Bool) (rc : RawCategory) : PatternM :=
  { type := rc.type
  , broad := rt rc.broadPattern
  , strict := rt rc.strictPattern
  , message := rc.message }

/-- Embeds `scanAndHighlight` at the granularity of claims C6/C8: the
`PATTERNS.length === 0` guard warns and aborts with zero results before
any traversal; otherwise candidates are extracted and processed in
batches of 3. -/
def scanAndHighlightModel (rt : String → String → Bool)
    (patterns : List RawCategory) (nodes : List TextNode)
    (verify : String → Option AiResult) : ScanReport :=
  if patterns.length = 0 then
    { results := [], warnedEmptyPatterns := true }
  else
    { results :=
        processBatches 3 verify (extractCandidates (patterns.map (toMatcher rt)) nodes)
    , warnedEmptyPatterns := false }

/-! ## Config parsing (content.js lines 32–87) -/

/-- Embeds `createPatternObject`: all fragments joined with `|` inside a
word-bounded group; the strict regex source is the very same string as
the broad one. -/
def createPatternObject (type : String) (keywordList : List String) : RawCategory :=
  let broadPattern := "\\b(" ++ String.intercalate "|" keywordList ++ ")\\b"
  { type := type
  , broadPattern := broadPattern
  , strictPattern := broadPattern
  , message := "Potential " ++ type ++ " pattern detected." }

/-- Embeds the test of the trimmed line against `/^\[(.*)\]$/`: the whole
line is an opening bracket, any characters, a closing bracket; the
capture is everything between the outer brackets.  (A one-character line
cannot satisfy both endpoint tests, so no length guard is needed.) -/
def headerName? (line : String) : Option String :=
  if line.startsWith "[" && line.endsWith "]" then
    some ((line.drop 1).dropRight 1)
  else
    none

/-- Embeds the keyword-line handling: split on commas, trim each part,
drop empty parts. -/
def fragmentsOfLine (line : String) : List String :=
  ((line.splitOn ",").map String.trim).filter (fun p => 0 < p.length)

/-- Embeds one iteration of the `lines.forEach` body of `parsePatterns`:
state is (current category name, accumulated keywords, emitted
categories). -/
def parseStep (st : Option String × List String × List RawCategory)
    (raw : String) : Option String × List String × List RawCategory :=
  let cur := st.1
  let kws := st.2.1
  let cats := st.2.2
  let line := raw.trim
  if line = "" || line.startsWith "#" then
    (cur, kws, cats)
  else
    match headerName? line with
    | some name =>
        match cur with
        | some c => (some name, [], cats ++ [createPatternObject c kws])
        | none => (some name, [], cats)
    | none => (cur, kws ++ fragmentsOfLine line, cats)

/-- Embeds the trailing `if (currentCategory) categories.push(...)` of
`parsePatterns`. -/
def parseFinish (st : Option String × List String × List RawCategory) :
    List RawCategory :=
  match st.1 with
  | some c => st.2.2 ++ [createPatternObject c st.2.1]
  | none => st.2.2

/-- Embeds `parsePatterns` (content.js lines 32–64): split on newlines,
fold the per-line handler over an accumulator, flush the last open
category. -/
def parsePatterns (text : String) : List RawCategory :=
  parseFinish ((text.splitOn "\n").foldl parseStep (none, [], []))

/-- Modelled from the spec's words (§4.2/§6 config format, claim C7):
flush the currently open section. -/
def specFlush (acc : Option (String × List String)) : List RawCategory :=
  match acc with
  | none => []
  | some (n, ks) => [createPatternObject n ks]

/-- Modelled from the spec's words (claim C7): a `[Name]` line opens a new
category; non-blank, non-`#` lines contribute comma-separated trimmed
fragments to the open category until the next header or end of file;
blank and `#` lines are ignored; fragment lines before any header belong
to no category. -/
def specParse (acc : Option (String × List String)) :
    List String → List RawCategory
  | [] => specFlush acc
  | rawLine :: rest =>
      let t := rawLine.trim
      if t = "" || t.startsWith "#" then
        specParse acc rest
      else
        match headerName? t with
        | some name => specFlush acc ++ specParse (some (name, [])) rest
        | none =>
            match acc with
            | none => specParse none rest
            | some (n, ks) => specParse (some (n, ks ++ fragmentsOfLine t)) rest

/-- Modelled from the spec's words (claim C7): the whole config parser as
the spec describes it, section by section. -/
def parsePatternsSpec (text : String) : List RawCategory :=
  specParse none (text.splitOn "\n")

/-- Embeds `loadPatterns` (content.js lines 15–29): a fetch failure or
invalidated extension context is caught and leaves `PATTERNS` as the
initial empty list; a successful fetch parses the config text. -/
def loadPatternsModel (fetched : Except String String) : List RawCategory :=
  match fetched with
  | Except.error _ => []
  | Except.ok text => parsePatterns text

/-! ## Scan-session state machine (content.js lines 105–435) -/

/-- Embeds the module-level session flags of `content.js` together with
the `scanTimeout` debounce handle of the `MutationObserver`
(`timerArmed` is whether a debounce `setTimeout` is pending). -/
structure ScanSession where
  isScanning : Bool
  hasScanned : Bool
  isPaused : Bool
  timerArmed : Bool
deriving DecidableEq, Repr

/-- The initial session state of a freshly loaded, unpaused content
script. -/
def initSession : ScanSession :=
  { isScanning := false, hasScanned := false, isPaused := false, timerArmed := false }

/-- The events that drive the session: a `scan` popup message, a
`togglePause` message carrying the new flag, a burst of DOM mutations
reaching the observer, the debounce timer firing, and an in-flight scan
reaching its `finally` block. -/
inductive PageEvent where
  | msgScan : PageEvent
  | msgTogglePause : Bool → PageEvent
  | mutationBurst : PageEvent
  | debounceFire : PageEvent
  | scanComplete : PageEvent
deriving DecidableEq, Repr

/-- Embeds a call of `scanAndHighlight()` at the session level: the
`if (isScanning) return` guard, then `isScanning = true`.  The returned
boolean says whether a scan actually started. -/
def attemptScan (s : ScanSession) : ScanSession × Bool :=
  if s.isScanning then (s, false)
  else ({ s with isScanning := true }, true)

/-- Embeds the event handlers of `content.js`:
* `scan` message — rejected with an alert while paused, otherwise calls
  `scanAndHighlight` (lines 394–401);
* `togglePause` message — stores the flag and calls `scanAndHighlight`
  on unpause (lines 404–410); the pending debounce timer is *not*
  cleared;
* the `MutationObserver` callback — returns at once while paused or
  scanning, otherwise resets/arms the debounce timer (lines 416–425);
* the debounce callback — clears the handle and calls
  `scanAndHighlight` unconditionally (lines 421–424);
* the `finally` block of a finishing scan (lines 320–322). -/
def sessionStep (s : ScanSession) : PageEvent → ScanSession × Bool
  | PageEvent.msgScan =>
      if s.isPaused then (s, false) else attemptScan s
  | PageEvent.msgTogglePause b =>
      let s' := { s with isPaused := b }
      if b then (s', false) else attemptScan s'
  | PageEvent.mutationBurst =>
      if s.isPaused || s.isScanning then (s, false)
      else ({ s with timerArmed := true }, false)
  | PageEvent.debounceFire =>
      if s.timerArmed then attemptScan { s with timerArmed := false }
      else (s, false)
  | PageEvent.scanComplete =>
      if s.isScanning then
        ({ s with isScanning := false, hasScanned := true }, false)
      else (s, false)

/-- Whether an event is the firing of the mutation-debounce timer — the
only way a document mutation ever auto-triggers a scan. -/
def isDebounceFire : PageEvent → Bool
  | PageEvent.debounceFire => true
  | _ => false

/-- Runs an event trace from the initial session and records whether, at
any step, the debounce timer started a scan while the session was paused
(i.e. a mutation-driven auto-trigger happened during pause). -/
def autoTriggerWhilePaused (evs : List PageEvent) : Bool :=
  (evs.foldl
    (fun (p : ScanSession × Bool) e =>
      let r := sessionStep p.1 e
      (r.1, p.2 || (r.2 && p.1.isPaused && isDebounceFire e)))
    (initSession, false)).2

/-! ## Semantic verifier (sandbox.js, lib/tf-stub.js) -/

/-- Embeds the pairwise accumulators of `cosineSimilarity`:
`dot += vecA[i] * vecB[i]` over the common length. -/
def dotP (a b : List ℚ) : ℚ :=
  (List.zipWith (fun x y => x * y) a b).sum

/-- The squared Euclidean norm accumulator `normA += vecA[i] * vecA[i]`. -/
def normSq (v : List ℚ) : ℚ := dotP v v

/-- Embeds `cosineSimilarity` of sandbox.js lines 96–104 (identical in
tf-stub.js lines 266–276): `dot / (Math.sqrt(normA) * Math.sqrt(normB))`.
Over exact arithmetic the denominator is zero exactly when one of the
squared norms is zero; in that case the JS division is `0/0 = NaN`,
modelled as `none`.  Otherwise the exact real value is returned. -/
noncomputable def cosineSimilarity (a b : List ℚ) : Option ℝ :=
  if normSq a = 0 ∨ normSq b = 0 then none
  else some ((dotP a b : ℝ) / (Real.sqrt (normSq a) * Real.sqrt (normSq b)))

/-- Embeds the best-match loop of both `predict` variants: `maxSim`
starts at 0 and `bestIdx` at −1 (modelled `none`); only a similarity
strictly above the running maximum displaces them. -/
def bestMatchAux : ℚ → Option ℕ → ℕ → List ℚ → ℚ × Option ℕ
  | best, idx, _, [] => (best, idx)
  | best, idx, i, s :: rest =>
      if s > best then bestMatchAux s (some i) (i + 1) rest
      else bestMatchAux best idx (i + 1) rest

/-- The result of the similarity scan over the example bank. -/
def bestMatch (sims : List ℚ) : ℚ × Option ℕ :=
  bestMatchAux 0 none 0 sims

/-- Embeds `capitalizeFirst` / the inline
`type.charAt(0).toUpperCase() + type.slice(1)`. -/
def capitalizeFirst (s : String) : String :=
  match s.data with
  | [] => ""
  | c :: rest => String.mk (c.toUpper :: rest)

/-- Embeds `parseFloat(score.toFixed(3))`: rounding to three decimal
places. -/
def round3 (q : ℚ) : ℚ :=
  ((round (q * 1000) : ℤ) : ℚ) / 1000

/-- Embeds the success result of `predictDarkPattern` (tf-stub.js lines
300–324).  `sims` is the list of cosine-similarity scores of the input
embedding against the cached example embeddings, in example order; the
returned `score` field is the rounded maximum while the confidence tier
is computed from the unrounded one. -/
structure StubResult where
  score : ℚ
  type : String
  confidence : String
  matchedExample : String
  modelUsed : String
deriving DecidableEq, Repr

/-- Embeds the result construction of `predictDarkPattern`
(tf-stub.js, main-frame variant). -/
def predictStub (sims : List ℚ) (labels examples : List String) : StubResult :=
  let m := (bestMatch sims).1
  let idx := (bestMatch sims).2
  { score := round3 m
  , type := capitalizeFirst (match idx with
      | some i => labels.getD i "Unknown"
      | none => "Unknown")
  , confidence := if m > 7/10 then "High" else if m > 1/2 then "Medium" else "Low"
  , matchedExample := (match idx with
      | some i => examples.getD i ""
      | none => "")
  , modelUsed := "USE" }

/-- Embeds the success result of `predict` (sandbox.js lines 106–140):
no `matchedExample` field, score unrounded, and the confidence ternary
is only `maxSim > 0.7 ? "High" : "Medium"`. -/
structure SandboxResult where
  score : ℚ
  type : String
  confidence : String
  modelUsed : String
deriving DecidableEq, Repr

/-- Embeds the result construction of `predict` (sandbox.js, the
isolated verifier variant). -/
def predictSandbox (sims : List ℚ) (labels : List String) : SandboxResult :=
  let m := (bestMatch sims).1
  let idx := (bestMatch sims).2
  { score := m
  , type := capitalizeFirst (match idx with
      | some i => labels.getD i "Unknown"
      | none => "Unknown")
  , confidence := if m > 7/10 then "High" else "Medium"
  , modelUsed := "USE" }

/-! ## Offscreen bridge (pending-request correlation table) -/

/-- Embeds the offscreen bridge state: `requestIdCounter` and the key set
of the `pendingRequests` map, plus a log of resolutions (id and the
payload the promise was resolved with). -/
structure BridgeState where
  counter : ℕ
  pending : List ℕ
  resolved : List (ℕ × String)
deriving DecidableEq, Repr

/-- The bridge before any request: counter 0, empty table. -/
def initBridge : BridgeState :=
  { counter := 0, pending := [], resolved := [] }

/-- Bridge events: `sendToSandbox` issuing a request, a window `message`
from the sandbox carrying an id and payload, and the 30-second timeout of
a given id firing. -/
inductive BridgeEvent where
  | send : BridgeEvent
  | response : ℕ → String → BridgeEvent
  | timeoutFire : ℕ → BridgeEvent
deriving DecidableEq, Repr

/-- Embeds the bridge transitions:
* `sendToSandbox` — `const id = ++requestIdCounter; pendingRequests.set(id, resolve)`;
* the window listener — resolves and deletes only when
  `pendingRequests.has(id)`, otherwise does nothing;
* the timeout callback — when the id is still pending, deletes it and
  resolves with the synthesized `{error: "Sandbox timeout"}`. -/
def bridgeStep (s : BridgeState) : BridgeEvent → BridgeState
  | BridgeEvent.send =>
      { counter := s.counter + 1
      , pending := (s.counter + 1) :: s.pending
      , resolved := s.resolved }
  | BridgeEvent.response id payload =>
      if id ∈ s.pending then
        { s with pending := s.pending.erase id,
                 resolved := s.resolved ++ [(id, payload)] }
      else s
  | BridgeEvent.timeoutFire id =>
      if id ∈ s.pending then
        { s with pending := s.pending.erase id,
                 resolved := s.resolved ++ [(id, "Sandbox timeout")] }
      else s

/-- Runs a trace of bridge events from the initial bridge. -/
def runBridge (evs : List BridgeEvent) : BridgeState :=
  evs.foldl bridgeStep initBridge

/-! ## Concrete inputs and invariants used by the theorems -/

/-- An AI verification outcome with a low score: concrete input for the
claim-C1 counterexample. -/
def aiLowScore : AiResult := { score := 1/2, fallback := false, error := false }

/-- Concrete event trace: a mutation arms the debounce, the user pauses,
then the pending debounce timer fires. -/
def pausedLeakTrace : List PageEvent :=
  [PageEvent.mutationBurst, PageEvent.msgTogglePause true, PageEvent.debounceFire]

/-- The session state after running a trace from the initial session. -/
def runSession (evs : List PageEvent) : ScanSession :=
  evs.foldl (fun s e => (sessionStep s e).1) initSession

/-- A session with a scan in flight: concrete input for witnesses. -/
def sessionScanning : ScanSession :=
  { isScanning := true, hasScanned := false, isPaused := false, timerArmed := false }

/-- A paused idle session: concrete input for witnesses. -/
def sessionPausedIdle : ScanSession :=
  { isScanning := false, hasScanned := true, isPaused := true, timerArmed := false }

/-- The bridge invariant: pending ids are pairwise distinct (exactly one
table entry per outstanding id) and bounded by the issued counter. -/
def BridgeInv (s : BridgeState) : Prop :=
  s.pending.Nodup ∧ ∀ i ∈ s.pending, i ≤ s.counter

/-- Concrete bridge trace: two requests issued, the first one timing
out. -/
def bridgeTrace : List BridgeEvent :=
  [BridgeEvent.send, BridgeEvent.send, BridgeEvent.timeoutFire 1]

/-! ## Helper lemmas -/

/-- Folding batch-wise result appending over the chunks of a list is the
same as one order-preserving `filterMap` over the whole list. -/
theorem batches_foldl_filterMap {α β : Type} (f : α → Option β) (k : ℕ)
    (l : List α) :
    ∀ acc : List β,
      (batches k l).foldl (fun a b => a ++ b.filterMap f) acc =
        acc ++ l.filterMap f := by
  induction k, l using batches.induct with
  | case1 k => intro acc; simp [batches]
  | case2 a l => intro acc; simp [batches]
  | case3 k a l ih =>
      intro acc
      rw [batches]
      simp only [List.foldl_cons]
      rw [ih, List.append_assoc, ← List.filterMap_append, List.take_succ_cons,
        List.cons_append, List.take_append_drop]

/-- The fold of `parseStep` started from any open-section state agrees
with the spec-style section parser on the remaining lines. -/
theorem parse_fold_agrees (lines : List String) :
    ∀ (cur : Option String) (kws : List String) (cats : List RawCategory),
      parseFinish (lines.foldl parseStep (cur, kws, cats)) =
        cats ++ specParse (cur.map (fun c => (c, kws))) lines := by
  induction lines with
  | nil =>
      intro cur kws cats
      cases cur with
      | none => simp [parseFinish, specParse, specFlush]
      | some c => simp [parseFinish, specParse, specFlush]
  | cons line rest ih =>
      intro cur kws cats
      rw [List.foldl_cons]
      by_cases hig : (line.trim = "" || line.trim.startsWith "#") = true
      · have hstep : parseStep (cur, kws, cats) line = (cur, kws, cats) := by
          simp only [parseStep, hig, if_true]
        rw [hstep, ih]
        conv_rhs => rw [specParse.eq_def]
        simp only [hig, if_true]
      · cases hh : headerName? line.trim with
        | some name =>
            cases cur with
            | some c =>
                have hstep : parseStep (some c, kws, cats) line =
                    (some name, [], cats ++ [createPatternObject c kws]) := by
                  simp only [parseStep, hig, if_false, Bool.false_eq_true, hh]
                rw [hstep, ih]
                conv_rhs => rw [specParse.eq_def]
                simp [hig, hh, specFlush]
            | none =>
                have hstep : parseStep (none, kws, cats) line =
                    (some name, [], cats) := by
                  simp only [parseStep, hig, if_false, Bool.false_eq_true, hh]
                rw [hstep, ih]
                conv_rhs => rw [specParse.eq_def]
                simp [hig, hh, specFlush]
        | none =>
            cases cur with
            | some c =>
                have hstep : parseStep (some c, kws, cats) line =
                    (some c, kws ++ fragmentsOfLine line.trim, cats) := by
                  simp only [parseStep, hig, if_false, Bool.false_eq_true, hh]
                rw [hstep, ih]
                conv_rhs => rw [specParse.eq_def]
                simp [hig, hh]
            | none =>
                have hstep : parseStep (none, kws, cats) line =
                    (none, kws ++ fragmentsOfLine line.trim, cats) := by
                  simp only [parseStep, hig, if_false, Bool.false_eq_true, hh]
                rw [hstep, ih]
                conv_rhs => rw [specParse.eq_def]
                simp [hig, hh]

/-- One `parseStep` keeps the emitted categories' strict/broad identity:
the only category it can append comes from `createPatternObject`, whose
strict source is the broad source. -/
theorem parseStep_preserves (st : Option String × List String × List RawCategory)
    (raw : String) (h : ∀ rc ∈ st.2.2, rc.strictPattern = rc.broadPattern) :
    ∀ rc ∈ (parseStep st raw).2.2, rc.strictPattern = rc.broadPattern := by
  intro rc hm
  simp only [parseStep] at hm
  split at hm
  · exact h rc hm
  · split at hm
    next name _ =>
      cases hcur : st.1 with
      | some c =>
          rw [hcur] at hm
          simp only at hm
          rcases List.mem_append.mp hm with h1 | h2
          · exact h rc h1
          · simp only [List.mem_singleton] at h2
            subst h2
            rfl
      | none =>
          rw [hcur] at hm
          simp only at hm
          exact h rc hm
    next _ => exact h rc hm

/-- Through the whole fold and the final flush, every produced category
has its strict matcher source equal to its broad matcher source. -/
theorem parseFold_strict_eq (lines : List String) :
    ∀ st : Option String × List String × List RawCategory,
      (∀ rc ∈ st.2.2, rc.strictPattern = rc.broadPattern) →
      ∀ rc ∈ parseFinish (lines.foldl parseStep st),
        rc.strictPattern = rc.broadPattern := by
  induction lines with
  | nil =>
      intro st h rc hm
      simp only [List.foldl_nil, parseFinish] at hm
      split at hm
      · rcases List.mem_append.mp hm with h1 | h2
        · exact h rc h1
        · simp only [List.mem_singleton] at h2
          subst h2
          rfl
      · exact h rc hm
  | cons line rest ih =>
      intro st h rc hm
      rw [List.foldl_cons] at hm
      exact ih (parseStep st line) (parseStep_preserves st line h) rc hm

/-! ## Claim theorems -/

/-- Claim C1, counterexample.  The claim says that whenever the tier-`AI`
acceptance does not apply, the strict matcher is re-tested — also for a
verification that succeeded (not fallback/error) with a score at most
0.6.  On the code, such a candidate is dropped without any strict re-test:
at a score of 0.5 with a strict matcher that fires on everything, the
claimed policy records a `StrictFallback` result while the code records
nothing. -/
theorem claim_C1_counterexample :
    decideOne candUrgency (some aiLowScore) = none ∧
    decideOneClaimed candUrgency (some aiLowScore) =
      some { type := "Urgency", text := (candUrgency.content).take 50,
             tier := Tier.StrictFallback, aiScore := none } ∧
    decideOne candUrgency (some aiLowScore) ≠
      decideOneClaimed candUrgency (some aiLowScore) := by
  have hc : ¬ ((3:ℚ)/5 < 2⁻¹) := by norm_num
  refine ⟨?_, ?_, ?_⟩ <;>
    simp [decideOne, decideOneClaimed, candUrgency, aiLowScore,
      strictFallbackDecision, hc]

/-- Claim C1, amended.  The per-candidate decision of `scanAndHighlight`
is tiered as follows: a verification result not marked fallback/error is
accepted with tier `AI` exactly when its score is strictly above 0.6 and
otherwise ends the candidate with no result recorded (no strict re-test);
only when the verification is absent (timeout/throw/AI not ready) or
marked fallback/error is the original matched text re-tested against the
category's strict matcher, accepting with tier `StrictFallback` exactly
when it fires. -/
theorem claim_C1_amended (c : Candidate) (r? : Option AiResult) :
    decideOne c r? = decideOneAmended c r? := by
  cases r? with
  | none => rfl
  | some r =>
      cases hf : r.fallback <;> cases he : r.error <;>
        simp [decideOne, decideOneAmended, hf, he]

/-- Claim C2.  A per-candidate verification that does not resolve within
the 5-second deadline loses the race to `timeoutPromise`, leaving a
`null` outcome independent of any late answer; that outcome is handled
identically to a verifier error, and the candidate always reaches the
strict-matcher re-test of its original matched text (accepted exactly
when the strict matcher fires) — never silently dropped without that
re-test. -/
theorem claim_C2_timeout_fallback (c : Candidate) (arrival : ℕ)
    (resp otherResp : Option AiResult) (r : AiResult)
    (htime : 5000 ≤ arrival) (herr : r.error = true) :
    verifyCandidate true 5000 arrival resp = none ∧
    verifyCandidate true 5000 arrival resp =
      verifyCandidate true 5000 arrival otherResp ∧
    decideOne c (verifyCandidate true 5000 arrival resp) =
      strictFallbackDecision c ∧
    decideOne c (some r) = strictFallbackDecision c := by
  have hlt : ¬ arrival < 5000 := by omega
  refine ⟨?_, ?_, ?_, ?_⟩ <;>
    simp [verifyCandidate, hlt, decideOne, herr]

/-- Witness for claim C2 at a concrete candidate, a 6-second arrival, a
late high-score answer, and a concrete error result. -/
theorem claim_C2_timeout_fallback_witness :
    verifyCandidate true 5000 6000
        (some { score := 9/10, fallback := false, error := false }) = none ∧
    verifyCandidate true 5000 6000
        (some { score := 9/10, fallback := false, error := false }) =
      verifyCandidate true 5000 6000 none ∧
    decideOne candUrgency
        (verifyCandidate true 5000 6000
          (some { score := 9/10, fallback := false, error := false })) =
      strictFallbackDecision candUrgency ∧
    decideOne candUrgency (some { score := 0, fallback := false, error := true }) =
      strictFallbackDecision candUrgency :=
  claim_C2_timeout_fallback candUrgency 6000
    (some { score := 9/10, fallback := false, error := false }) none
    { score := 0, fallback := false, error := true }
    (by decide) rfl

/-- Claim C6.  With a per-candidate verification that is a deterministic
function of the context text (no timeouts), partitioning the candidate
list into batches of 1 and into batches of 3 yields the same final result
list; both equal the order-preserving `filterMap` of the per-candidate
decision over the candidate list, and the batch fold applies batch `N`
completely before batch `N + 1` by construction. -/
theorem claim_C6_batch_invariance (verify : String → Option AiResult)
    (cands : List Candidate) :
    processBatches 1 verify cands = processBatches 3 verify cands ∧
    processBatches 3 verify cands =
      cands.filterMap (fun c => decideOne c (verify c.context)) := by
  constructor
  · unfold processBatches
    rw [batches_foldl_filterMap, batches_foldl_filterMap]
  · unfold processBatches
    rw [batches_foldl_filterMap]
    simp

/-- Claim C7.  `parsePatterns` parses the config text exactly as the spec
describes it: `[Name]` lines open categories, subsequent non-blank
non-`#` lines contribute comma-separated trimmed fragments (empty ones
dropped) to the open category until the next header or end of file, blank
and `#` lines are ignored (the section-by-section reading is
`parsePatternsSpec`); and every produced category has its strict matcher
compiled from the same alternation string as its broad matcher. -/
theorem claim_C7_parse (text : String) :
    parsePatterns text = parsePatternsSpec text ∧
    (parsePatterns text).all
      (fun rc => rc.strictPattern == rc.broadPattern) = true := by
  constructor
  · unfold parsePatterns parsePatternsSpec
    have h := parse_fold_agrees (text.splitOn "\n") none [] []
    simpa using h
  · rw [List.all_eq_true]
    intro rc hrc
    have hmem : rc ∈ parseFinish ((text.splitOn "\n").foldl parseStep (none, [], [])) := hrc
    have h := parseFold_strict_eq (text.splitOn "\n") (none, [], [])
      (by intro rc0 hm; simp at hm) rc hmem
    exact beq_iff_eq.mpr h

/-- Claim C8.  An i/o failure (or invalidated context) while loading the
config leaves the Category Bank empty, and a scan that starts with an
empty Category Bank aborts gracefully: it returns the model's total
`ScanReport` with zero results and the logged warning — the model never
needs an exception path because the code's `try`/`catch`/`finally`
confines every error. -/
theorem claim_C8_config_failure (rt : String → String → Bool)
    (fetched : Except String String) (nodes : List TextNode)
    (verify : String → Option AiResult)
    (h : loadPatternsModel fetched = []) :
    (∀ e, loadPatternsModel (Except.error e) = []) ∧
    scanAndHighlightModel rt (loadPatternsModel fetched) nodes verify =
      { results := [], warnedEmptyPatterns := true } := by
  refine ⟨fun e => rfl, ?_⟩
  rw [h]
  rfl

/-- Claim C3, counterexample.  The claim says that while the session is
paused no document mutation ever auto-triggers a scan.  On the code, a
debounce timer armed by a pre-pause mutation is not cleared by
`togglePause`, and its callback calls `scanAndHighlight` without
re-checking `isPaused`: after the trace mutation → pause → timer fire, a
mutation-driven scan has started while the session is paused. -/
theorem claim_C3_counterexample :
    autoTriggerWhilePaused pausedLeakTrace = true ∧
    (runSession pausedLeakTrace).isPaused = true ∧
    (runSession pausedLeakTrace).isScanning = true := by
  refine ⟨?_, ?_, ?_⟩ <;> decide

/-- Claim C3, amended.  The session invariant that does hold at every
step: a scan only ever starts when no scan is active (at most one scan at
a time); a `scan` message while a scan is in flight is a no-op; a `scan`
message while paused is rejected without starting a scan; and a mutation
observed while paused changes nothing — in particular it never arms the
debounce.  (What the counterexample removes from the original claim: a
debounce timer armed by a mutation *before* pausing still fires during
pause and starts a scan.) -/
theorem claim_C3_amended (s : ScanSession) (e : PageEvent) :
    ((sessionStep s e).2 = true → s.isScanning = false) ∧
    (s.isScanning = true → sessionStep s PageEvent.msgScan = (s, false)) ∧
    (s.isPaused = true → sessionStep s PageEvent.msgScan = (s, false)) ∧
    (s.isPaused = true → sessionStep s PageEvent.mutationBurst = (s, false)) := by
  refine ⟨?_, ?_, ?_, ?_⟩
  · intro h
    cases e <;>
      simp only [sessionStep, attemptScan] at h <;>
      split_ifs at h <;>
      simp_all
  · intro h
    simp [sessionStep, attemptScan, h]
  · intro h
    simp [sessionStep, h]
  · intro h
    simp [sessionStep, h]

/-- Witness for claim C3 (amended) at concrete sessions: a scan start
observed from the initial session, a no-op `scan` while scanning, a
rejected `scan` while paused, and an ignored mutation while paused. -/
theorem claim_C3_amended_witness :
    initSession.isScanning = false ∧
    sessionStep sessionScanning PageEvent.msgScan = (sessionScanning, false) ∧
    sessionStep sessionPausedIdle PageEvent.msgScan = (sessionPausedIdle, false) ∧
    sessionStep sessionPausedIdle PageEvent.mutationBurst = (sessionPausedIdle, false) :=
  ⟨(claim_C3_amended initSession PageEvent.msgScan).1 (by decide),
   (claim_C3_amended sessionScanning PageEvent.msgScan).2.1 rfl,
   (claim_C3_amended sessionPausedIdle PageEvent.msgScan).2.2.1 rfl,
   (claim_C3_amended sessionPausedIdle PageEvent.mutationBurst).2.2.2 rfl⟩

/-- Claim C4, counterexample.  The claim says every result with score at
most 0.5 carries confidence `Low`.  The sandboxed verifier's `predict`
(sandbox.js) computes `maxSim > 0.7 ? "High" : "Medium"`: at a best
similarity of 0.4 it returns confidence `Medium`, not `Low`. -/
theorem claim_C4_counterexample :
    (predictSandbox [2/5] ["fakeUrgency"]).score = 2/5 ∧
    ((predictSandbox [2/5] ["fakeUrgency"]).score ≤ 1/2) ∧
    (predictSandbox [2/5] ["fakeUrgency"]).confidence = "Medium" ∧
    (predictSandbox [2/5] ["fakeUrgency"]).confidence ≠ "Low" := by
  have hb : bestMatch [(2:ℚ)/5] = (2/5, some 0) := by
    simp [bestMatch, bestMatchAux]
  have h7 : ¬ ((2:ℚ)/5 > 7/10) := by norm_num
  refine ⟨?_, ?_, ?_, ?_⟩
  · show (bestMatch [(2:ℚ)/5]).1 = 2/5
    rw [hb]
  · show (bestMatch [(2:ℚ)/5]).1 ≤ 1/2
    rw [hb]
    norm_num
  · show (if (bestMatch [(2:ℚ)/5]).1 > 7/10 then "High" else "Medium") = "Medium"
    rw [hb]
    rw [if_neg h7]
  · show (if (bestMatch [(2:ℚ)/5]).1 > 7/10 then "High" else "Medium") ≠ "Low"
    rw [hb]
    rw [if_neg h7]
    decide

/-- Claim C4, amended.  The main-frame verifier (`predictDarkPattern` in
tf-stub.js) assigns the confidence tier exactly as the claim states:
`High` above 0.7, `Medium` above 0.5, else `Low`.  The sandboxed
verifier's `predict` (sandbox.js) assigns `High` above 0.7 and `Medium`
in every other case — it never returns `Low`. -/
theorem claim_C4_amended (sims : List ℚ) (labels examples : List String) :
    ((bestMatch sims).1 > 7/10 →
      (predictStub sims labels examples).confidence = "High") ∧
    ((bestMatch sims).1 ≤ 7/10 → (bestMatch sims).1 > 1/2 →
      (predictStub sims labels examples).confidence = "Medium") ∧
    ((bestMatch sims).1 ≤ 1/2 →
      (predictStub sims labels examples).confidence = "Low") ∧
    ((bestMatch sims).1 > 7/10 →
      (predictSandbox sims labels).confidence = "High") ∧
    ((bestMatch sims).1 ≤ 7/10 →
      (predictSandbox sims labels).confidence = "Medium") ∧
    (predictSandbox sims labels).confidence ≠ "Low" := by
  refine ⟨?_, ?_, ?_, ?_, ?_, ?_⟩
  · intro h
    show (if (bestMatch sims).1 > 7/10 then "High"
          else if (bestMatch sims).1 > 1/2 then "Medium" else "Low") = "High"
    rw [if_pos h]
  · intro h1 h2
    show (if (bestMatch sims).1 > 7/10 then "High"
          else if (bestMatch sims).1 > 1/2 then "Medium" else "Low") = "Medium"
    rw [if_neg (not_lt.mpr h1), if_pos h2]
  · intro h
    have h7 : ¬ ((bestMatch sims).1 > 7/10) :=
      not_lt.mpr (le_trans h (by norm_num))
    have h5 : ¬ ((bestMatch sims).1 > 1/2) := not_lt.mpr h
    show (if (bestMatch sims).1 > 7/10 then "High"
          else if (bestMatch sims).1 > 1/2 then "Medium" else "Low") = "Low"
    rw [if_neg h7, if_neg h5]
  · intro h
    show (if (bestMatch sims).1 > 7/10 then "High" else "Medium") = "High"
    rw [if_pos h]
  · intro h
    show (if (bestMatch sims).1 > 7/10 then "High" else "Medium") = "Medium"
    rw [if_neg (not_lt.mpr h)]
  · show (if (bestMatch sims).1 > 7/10 then "High" else "Medium") ≠ "Low"
    by_cases h : (bestMatch sims).1 > 7/10
    · rw [if_pos h]
      decide
    · rw [if_neg h]
      decide

/-- Witness for claim C4 (amended) at concrete similarity lists for each
tier. -/
theorem claim_C4_amended_witness :
    (predictStub [4/5] ["a"] ["e"]).confidence = "High" ∧
    (predictStub [3/5] ["a"] ["e"]).confidence = "Medium" ∧
    (predictStub [2/5] ["a"] ["e"]).confidence = "Low" ∧
    (predictSandbox [2/5] ["a"]).confidence = "Medium" := by
  have h8 : bestMatch [(4:ℚ)/5] = (4/5, some 0) := by
    simp [bestMatch, bestMatchAux]
  have h6 : bestMatch [(3:ℚ)/5] = (3/5, some 0) := by
    simp [bestMatch, bestMatchAux]
  have h4 : bestMatch [(2:ℚ)/5] = (2/5, some 0) := by
    simp [bestMatch, bestMatchAux]
  exact ⟨(claim_C4_amended [4/5] ["a"] ["e"]).1 (by rw [h8]; norm_num),
    (claim_C4_amended [3/5] ["a"] ["e"]).2.1 (by rw [h6]; norm_num)
      (by rw [h6]; norm_num),
    (claim_C4_amended [2/5] ["a"] ["e"]).2.2.1 (by rw [h4]; norm_num),
    (claim_C4_amended [2/5] ["a"] ["e"]).2.2.2.2.1 (by rw [h4]; norm_num)⟩

/-- The best-match loop never leaves its initial accumulator when no
similarity is strictly positive. -/
theorem bestMatchAux_nonpos (sims : List ℚ) (h : ∀ s ∈ sims, s ≤ 0) :
    ∀ i : ℕ, bestMatchAux 0 none i sims = (0, none) := by
  induction sims with
  | nil => intro i; rfl
  | cons s rest ih =>
      intro i
      have hs : ¬ s > 0 := not_lt.mpr (h s (by simp))
      rw [bestMatchAux, if_neg hs]
      exact ih (fun x hx => h x (by simp [hx])) (i + 1)

/-- Claim C10.  When every cosine similarity against the cached examples
is at most 0 (in particular for an empty example list), `predict` does
not fail: only strictly positive similarities displace the initial best
score 0 and index −1, so both variants return score 0 with category
`"Unknown"`, and the main-frame variant returns an empty
`matchedExample`. -/
theorem claim_C10_nonpositive (sims : List ℚ) (labels examples : List String)
    (h : ∀ s ∈ sims, s ≤ 0) :
    predictStub sims labels examples =
      { score := 0, type := "Unknown", confidence := "Low",
        matchedExample := "", modelUsed := "USE" } ∧
    predictSandbox sims labels =
      { score := 0, type := "Unknown", confidence := "Medium",
        modelUsed := "USE" } := by
  have hbm : bestMatch sims = (0, none) := bestMatchAux_nonpos sims h 0
  have hcap : capitalizeFirst "Unknown" = "Unknown" := rfl
  have hr3 : round3 0 = 0 := by norm_num [round3]
  have h7 : ¬ ((0:ℚ) > 7/10) := by norm_num
  have h5 : ¬ ((0:ℚ) > 1/2) := by norm_num
  constructor
  · have e1 : predictStub sims labels examples =
        { score := round3 0, type := capitalizeFirst "Unknown",
          confidence := if (0:ℚ) > 7/10 then "High"
                         else if (0:ℚ) > 1/2 then "Medium" else "Low",
          matchedExample := "", modelUsed := "USE" } := by
      unfold predictStub
      rw [hbm]
    rw [e1, hr3, hcap, if_neg h7, if_neg h5]
  · have e2 : predictSandbox sims labels =
        { score := 0, type := capitalizeFirst "Unknown",
          confidence := if (0:ℚ) > 7/10 then "High" else "Medium",
          modelUsed := "USE" } := by
      unfold predictSandbox
      rw [hbm]
    rw [e2, hcap, if_neg h7]

/-- Witness for claim C10 at a concrete nonpositive similarity list. -/
theorem claim_C10_nonpositive_witness :
    predictStub [-(1:ℚ)/2, 0] ["fakeUrgency", "nagging"] ["Hurry!", "Wait!"] =
      { score := 0, type := "Unknown", confidence := "Low",
        matchedExample := "", modelUsed := "USE" } ∧
    predictSandbox [-(1:ℚ)/2, 0] ["fakeUrgency", "nagging"] =
      { score := 0, type := "Unknown", confidence := "Medium",
        modelUsed := "USE" } :=
  claim_C10_nonpositive [-(1:ℚ)/2, 0] ["fakeUrgency", "nagging"]
    ["Hurry!", "Wait!"] (by intro s hs; simp at hs; rcases hs with h | h <;> norm_num [h])

/-- A squared norm — the accumulator `normA += vecA[i] * vecA[i]` — is a
sum of squares, hence nonnegative. -/
theorem normSq_nonneg (v : List ℚ) : 0 ≤ normSq v := by
  unfold normSq dotP
  induction v with
  | nil => simp
  | cons x xs ih =>
      rw [List.zipWith_cons_cons, List.sum_cons]
      have hx : (0:ℚ) ≤ x * x := mul_self_nonneg x
      linarith

/-- Claim C5, counterexample.  The claim says `cosineSimilarity` returns 0
when a vector's norm is exactly zero and that the division never produces
an undefined value.  On the code, a zero norm makes the denominator
`Math.sqrt(0) * Math.sqrt(normB)` zero while the dot product is also 0,
so the JS division is `0/0 = NaN` — an undefined value, not 0: at the
concrete vectors `[0]` and `[1]` the result is `NaN` (`none`), not
`some 0`. -/
theorem claim_C5_counterexample :
    cosineSimilarity [(0:ℚ)] [(1:ℚ)] = none ∧
    cosineSimilarity [(0:ℚ)] [(1:ℚ)] ≠ some (0:ℝ) := by
  have h : normSq [(0:ℚ)] = 0 := by simp [normSq, dotP]
  constructor
  · unfold cosineSimilarity
    rw [if_pos (Or.inl h)]
  · unfold cosineSimilarity
    rw [if_pos (Or.inl h)]
    simp

/-- Claim C5, amended.  When both squared norms are nonzero,
`cosineSimilarity a b` is defined and equals the dot product divided by
the product of the Euclidean norms (witnessed by the defined value
multiplying back to the dot product); when either norm is exactly zero
the result is the undefined JS value `NaN` (`none`), not 0. -/
theorem claim_C5_amended (a b : List ℚ) :
    ((normSq a = 0 ∨ normSq b = 0) → cosineSimilarity a b = none) ∧
    (normSq a ≠ 0 → normSq b ≠ 0 →
      ∃ x : ℝ, cosineSimilarity a b = some x ∧
        x * (Real.sqrt (normSq a) * Real.sqrt (normSq b)) = (dotP a b : ℝ)) := by
  constructor
  · intro h0
    unfold cosineSimilarity
    rw [if_pos h0]
  · intro ha hb
    have ha0 : (0:ℚ) < normSq a := lt_of_le_of_ne (normSq_nonneg a) (Ne.symm ha)
    have hb0 : (0:ℚ) < normSq b := lt_of_le_of_ne (normSq_nonneg b) (Ne.symm hb)
    have hsa : (0:ℝ) < Real.sqrt (normSq a) :=
      Real.sqrt_pos.mpr (by exact_mod_cast ha0)
    have hsb : (0:ℝ) < Real.sqrt (normSq b) :=
      Real.sqrt_pos.mpr (by exact_mod_cast hb0)
    have hden : Real.sqrt (normSq a) * Real.sqrt (normSq b) ≠ 0 :=
      ne_of_gt (mul_pos hsa hsb)
    refine ⟨(dotP a b : ℝ) / (Real.sqrt (normSq a) * Real.sqrt (normSq b)), ?_, ?_⟩
    · unfold cosineSimilarity
      rw [if_neg (not_or.mpr ⟨ha, hb⟩)]
    · exact div_mul_cancel₀ _ hden

/-- Witness for claim C5 (amended): the zero-norm case at `[0]`/`[1]` and
the defined case at `[1]`/`[1]`. -/
theorem claim_C5_amended_witness :
    cosineSimilarity [(0:ℚ)] [(1:ℚ)] = none ∧
    (∃ x : ℝ, cosineSimilarity [(1:ℚ)] [(1:ℚ)] = some x ∧
      x * (Real.sqrt (normSq [(1:ℚ)]) * Real.sqrt (normSq [(1:ℚ)])) =
        (dotP [(1:ℚ)] [(1:ℚ)] : ℝ)) :=
  ⟨(claim_C5_amended [(0:ℚ)] [(1:ℚ)]).1 (Or.inl (by simp [normSq, dotP])),
   (claim_C5_amended [(1:ℚ)] [(1:ℚ)]).2 (by norm_num [normSq, dotP])
     (by norm_num [normSq, dotP])⟩

/-- Every bridge event preserves the bridge invariant. -/
theorem bridgeStep_inv {s : BridgeState} (h : BridgeInv s) (e : BridgeEvent) :
    BridgeInv (bridgeStep s e) := by
  obtain ⟨hnd, hbd⟩ := h
  cases e with
  | send =>
      simp only [BridgeInv, bridgeStep]
      constructor
      · exact List.nodup_cons.mpr
          ⟨fun hm => by have := hbd _ hm; omega, hnd⟩
      · intro i hi
        rcases List.mem_cons.mp hi with h1 | h2
        · omega
        · have := hbd i h2
          omega
  | response id p =>
      by_cases hm : id ∈ s.pending
      · simp only [bridgeStep, if_pos hm]
        exact ⟨hnd.erase id, fun i hi => hbd i (List.mem_of_mem_erase hi)⟩
      · simp only [bridgeStep, if_neg hm]
        exact ⟨hnd, hbd⟩
  | timeoutFire id =>
      by_cases hm : id ∈ s.pending
      · simp only [bridgeStep, if_pos hm]
        exact ⟨hnd.erase id, fun i hi => hbd i (List.mem_of_mem_erase hi)⟩
      · simp only [bridgeStep, if_neg hm]
        exact ⟨hnd, hbd⟩

/-- The bridge invariant holds after any event trace from the initial
bridge. -/
theorem runBridge_inv (evs : List BridgeEvent) : BridgeInv (runBridge evs) := by
  unfold runBridge
  have step : ∀ (s : BridgeState), BridgeInv s →
      BridgeInv (evs.foldl bridgeStep s) := by
    induction evs with
    | nil => intro s hs; exact hs
    | cons e rest ih => intro s hs; exact ih _ (bridgeStep_inv hs e)
  exact step initBridge ⟨List.nodup_nil, by intro i hi; simp [initBridge] at hi⟩

/-- Claim C9.  After any trace of bridge events: every outstanding id has
exactly one pending entry (the pending list never holds duplicates); a
newly issued request gets a fresh id, adding exactly its own entry; a
response for a pending id removes that entry and resolves with the
payload; a timeout firing for a pending id removes that entry and
resolves with the synthesized `"Sandbox timeout"` error value; and a
response whose id has no pending entry — in particular any late response
after its timeout already fired — leaves the bridge unchanged and
resolves nothing. -/
theorem claim_C9_bridge (evs : List BridgeEvent) :
    (runBridge evs).pending.Nodup ∧
    ((runBridge evs).counter + 1 ∉ (runBridge evs).pending ∧
      (bridgeStep (runBridge evs) BridgeEvent.send).pending =
        ((runBridge evs).counter + 1) :: (runBridge evs).pending) ∧
    (∀ id p, id ∈ (runBridge evs).pending →
      (bridgeStep (runBridge evs) (BridgeEvent.response id p)).pending =
          (runBridge evs).pending.erase id ∧
        (bridgeStep (runBridge evs) (BridgeEvent.response id p)).resolved =
          (runBridge evs).resolved ++ [(id, p)]) ∧
    (∀ id, id ∈ (runBridge evs).pending →
      (bridgeStep (runBridge evs) (BridgeEvent.timeoutFire id)).pending =
          (runBridge evs).pending.erase id ∧
        (bridgeStep (runBridge evs) (BridgeEvent.timeoutFire id)).resolved =
          (runBridge evs).resolved ++ [(id, "Sandbox timeout")]) ∧
    (∀ id p, id ∉ (runBridge evs).pending →
      bridgeStep (runBridge evs) (BridgeEvent.response id p) = runBridge evs) := by
  obtain ⟨hnd, hbd⟩ := runBridge_inv evs
  refine ⟨hnd, ⟨?_, rfl⟩, ?_, ?_, ?_⟩
  · intro hm
    have := hbd _ hm
    omega
  · intro id p hm
    constructor <;> simp [bridgeStep, hm]
  · intro id hm
    constructor <;> simp [bridgeStep, hm]
  · intro id p hm
    simp [bridgeStep, hm]

/-- Witness for claim C9 on a concrete trace: the table stays
duplicate-free, a pending response removes its entry, and the late
response for the timed-out id 1 is ignored. -/
theorem claim_C9_bridge_witness :
    (runBridge bridgeTrace).pending.Nodup ∧
    (bridgeStep (runBridge bridgeTrace) (BridgeEvent.response 2 "ok")).pending =
      (runBridge bridgeTrace).pending.erase 2 ∧
    bridgeStep (runBridge bridgeTrace) (BridgeEvent.response 1 "late") =
      runBridge bridgeTrace :=
  ⟨(claim_C9_bridge bridgeTrace).1,
   ((claim_C9_bridge bridgeTrace).2.2.1 2 "ok" (by decide)).1,
   (claim_C9_bridge bridgeTrace).2.2.2.2 1 "late" (by decide)⟩

/-- Witness for claim C8 at a concrete failed fetch. -/
theorem claim_C8_config_failure_witness :
    (∀ e, loadPatternsModel (Except.error e) = []) ∧
    scanAndHighlightModel (fun _ _ => false)
        (loadPatternsModel (Except.error "Failed to fetch")) [] (fun _ => none) =
      { results := [], warnedEmptyPatterns := true } :=
  claim_C8_config_failure (fun _ _ => false) (Except.error "Failed to fetch")
    [] (fun _ => none) rfl

end DarkPatternDetector
